import Mathlib

/-!
Shallow embedding of the align-anything cookbook material:

* the AA_TI2T chat-template formatter and the SFT training loop shown in
  cookbooks/zh/text_image_to_text_sft.ipynb, and
* the static configuration file
  align_anything/configs/train/text_video_to_action/sft.yaml.

Python dicts are embedded as insertion-ordered association lists with
unique keys; Python exceptions as an explicit error type carried by
Except; the training loop as a state-passing interpreter that records an
event trace.  The model forward pass, backward pass and optimizer math
live in external libraries and are abstracted by oracles (a loss and a
gradient for each global step index), while the loop structure itself is
translated statement by statement from the notebook.
-/

/-- Abstraction of a PIL image: its mode string and abstract pixel content. -/
structure PILImage where
  mode : String
  content : Nat
deriving DecidableEq

/-- PIL's Image.convert(mode): the same picture in the requested mode. -/
def PILImage.convert (i : PILImage) (m : String) : PILImage :=
  { i with mode := m }

/-- A Python value stored in a raw dataset sample: a string or a PIL image. -/
inductive PyVal where
  | str (s : String)
  | img (i : PILImage)
deriving DecidableEq

/-- Python exceptions raised by the embedded code. -/
inductive PyError where
  | keyError (k : String)
  | attributeError (a : String)
deriving DecidableEq

/-- Lookup in an insertion-ordered dict, as an association list. -/
def dictFind? {α : Type} (d : List (String × α)) (k : String) : Option α :=
  match d.find? (fun p => p.1 == k) with
  | some p => some p.2
  | none => none

/-- The dict that remains after removing key k (dict.pop removes the key). -/
def dictErase {α : Type} (d : List (String × α)) (k : String) : List (String × α) :=
  d.filter (fun p => !(p.1 == k))

/-- Python d[k]: the value, or a KeyError when the key is absent. -/
def dictGet {α : Type} (d : List (String × α)) (k : String) : Except PyError α :=
  match dictFind? d k with
  | some v => .ok v
  | none => .error (.keyError k)

/-- Python d.pop(k) with no default: the value and the remaining dict,
or a KeyError when the key is absent. -/
def dictPop {α : Type} (d : List (String × α)) (k : String) :
    Except PyError (α × List (String × α)) :=
  match dictFind? d k with
  | some v => .ok (v, dictErase d k)
  | none => .error (.keyError k)

/-- value.convert(mode): only PIL images have a convert method; on any
other value Python raises an AttributeError. -/
def pyConvert (v : PyVal) (m : String) : Except PyError PyVal :=
  match v with
  | .img i => .ok (.img (i.convert m))
  | .str _ => .error (.attributeError "convert")

/-- One content block of a conversational turn. -/
inductive ContentBlock where
  | image
  | text (t : PyVal)
deriving DecidableEq

/-- One conversational turn: a role and its content blocks. -/
structure Turn where
  role : String
  content : List ContentBlock
deriving DecidableEq

/-- A raw dataset sample, a Python dict. -/
abbrev RawSample := List (String × PyVal)

/-- The result of the formatter: a conversation and the multi-modal dict. -/
abbrev FormattedPair := List Turn × List (String × PyVal)

/-- AA_TI2T.format_supervised_sample from the notebook:
reads raw_sample['prompt'], raw_sample['response'],
raw_sample['image'].convert('RGBA') in that order and returns the fixed
two-turn conversation together with the dict containing the converted image. -/
def format_supervised_sample (raw : RawSample) : Except PyError FormattedPair :=
  match dictGet raw "prompt" with
  | .error e => .error e
  | .ok prompt =>
  match dictGet raw "response" with
  | .error e => .error e
  | .ok answer =>
  match dictGet raw "image" with
  | .error e => .error e
  | .ok imageRaw =>
  match pyConvert imageRaw "RGBA" with
  | .error e => .error e
  | .ok image =>
    .ok ([{ role := "user", content := [.image, .text prompt] },
          { role := "assistant", content := [.text answer] }],
         [("image", image)])

/-- Claim C2: on a raw sample holding the keys prompt, response and image,
format_supervised_sample returns exactly the two-turn conversation (user
turn with an image block and the prompt text, assistant turn with the
response text) paired with the dict mapping image to the RGBA-converted
input image, and every successful output has this shape. -/
theorem c2_format_supervised_sample_shape (raw : RawSample) (p r : String) (i : PILImage)
    (hp : dictFind? raw "prompt" = some (.str p))
    (hr : dictFind? raw "response" = some (.str r))
    (hi : dictFind? raw "image" = some (.img i)) :
    format_supervised_sample raw =
      .ok ([{ role := "user", content := [.image, .text (.str p)] },
            { role := "assistant", content := [.text (.str r)] }],
           [("image", .img (i.convert "RGBA"))]) ∧
    (i.convert "RGBA").mode = "RGBA" ∧
    (∀ (raw' : RawSample) (out : FormattedPair),
      format_supervised_sample raw' = .ok out →
      ∃ (p' a' : PyVal) (i' : PILImage),
        dictFind? raw' "image" = some (.img i') ∧
        out = ([{ role := "user", content := [.image, .text p'] },
                { role := "assistant", content := [.text a'] }],
               [("image", .img (i'.convert "RGBA"))])) := by
  refine ⟨by simp [format_supervised_sample, dictGet, hp, hr, hi, pyConvert], rfl, ?_⟩
  intro raw' out h
  unfold format_supervised_sample dictGet at h
  rcases hP : dictFind? raw' "prompt" with _ | p' <;> rw [hP] at h
  · simp at h
  rcases hR : dictFind? raw' "response" with _ | a' <;> rw [hR] at h
  · simp at h
  rcases hI : dictFind? raw' "image" with _ | iv <;> rw [hI] at h
  · simp at h
  rcases iv with s | i'
  · simp [pyConvert] at h
  · refine ⟨p', a', i', rfl, ?_⟩
    simp [pyConvert] at h
    exact h.symm

/-- Witness for C2 at a concrete sample. -/
theorem c2_witness :
    format_supervised_sample
      [("prompt", .str "q"), ("response", .str "a"), ("image", .img ⟨"RGB", 7⟩)] =
      .ok ([{ role := "user", content := [.image, .text (.str "q")] },
            { role := "assistant", content := [.text (.str "a")] }],
           [("image", .img (PILImage.convert ⟨"RGB", 7⟩ "RGBA"))]) :=
  (c2_format_supervised_sample_shape
    [("prompt", .str "q"), ("response", .str "a"), ("image", .img ⟨"RGB", 7⟩)]
    "q" "a" ⟨"RGB", 7⟩ rfl rfl rfl).1

/-- Claim C3: format_supervised_sample is a pure function of the prompt,
response and image fields alone: two raw samples agreeing on these three
lookups produce equal results, so repeated calls on equal samples agree
and no call can influence a later one. -/
theorem c3_format_supervised_sample_pure (raw1 raw2 : RawSample)
    (hp : dictFind? raw1 "prompt" = dictFind? raw2 "prompt")
    (hr : dictFind? raw1 "response" = dictFind? raw2 "response")
    (hi : dictFind? raw1 "image" = dictFind? raw2 "image") :
    format_supervised_sample raw1 = format_supervised_sample raw2 := by
  unfold format_supervised_sample dictGet
  rw [hp, hr, hi]

/-- Witness for C3: two samples differing in an extra key format alike. -/
theorem c3_witness :
    format_supervised_sample
      [("prompt", .str "q"), ("response", .str "a"), ("image", .img ⟨"RGB", 7⟩)] =
    format_supervised_sample
      [("prompt", .str "q"), ("response", .str "a"), ("image", .img ⟨"RGB", 7⟩),
       ("extra", .str "x")] :=
  c3_format_supervised_sample_pure
    [("prompt", .str "q"), ("response", .str "a"), ("image", .img ⟨"RGB", 7⟩)]
    [("prompt", .str "q"), ("response", .str "a"), ("image", .img ⟨"RGB", 7⟩),
     ("extra", .str "x")] rfl rfl rfl

/-- A YAML value: scalar, sequence, null, or nested mapping. -/
inductive YVal where
  | b (v : Bool)
  | i (v : Int)
  | q (v : ℚ)
  | s (v : String)
  | list (vs : List YVal)
  | null
  | map (entries : List (String × YVal))

/-- Lookup of a key in a YAML mapping. -/
def yLookup (entries : List (String × YVal)) (k : String) : Option YVal :=
  match entries.find? (fun p => p.1 == k) with
  | some p => some p.2
  | none => none

/-- Lookup of a key nested one level under a top-level group key. -/
def yLookup2 (entries : List (String × YVal)) (k1 k2 : String) : Option YVal :=
  match yLookup entries k1 with
  | some (.map m) => yLookup m k2
  | _ => none

/-- The file align_anything/configs/train/text_video_to_action/sft.yaml,
transcribed key by key in file order. -/
def sftYaml : List (String × YVal) :=
  [("train_cfgs", .map
     [("save_checkpoint", .b false),
      ("load_checkpoint", .b false),
      ("ds_cfgs", .s "ds_z3_config.json"),
      ("seed", .i 3407),
      ("epochs", .i 200),
      ("per_device_train_batch_size", .i 8),
      ("per_device_val_batch_size", .i 12),
      ("gradient_accumulation_steps", .i 2),
      ("gradient_checkpointing", .b false),
      ("learning_rate", .q 0.0001),
      ("lr_scheduler_type", .s "constant"),
      ("lr_warmup_ratio", .q 0.0),
      ("weight_decay", .q 0.0),
      ("adam_betas", .list [.q 0.9, .q 0.95]),
      ("adam_epsilon", .q 1e-8),
      ("loss", .s "action"),
      ("val_strategy", .s "steps"),
      ("val_interval", .i 500),
      ("max_grad_norm", .q 1.0),
      ("bf16", .b true),
      ("fp16", .b false)]),
   ("data_cfgs", .map
     [("dataset_version", .s "CHORES"),
      ("dataset_task_type", .list [.s "PickupType"]),
      ("data_dir", .s "path/to/data"),
      ("sliding_window", .i 100),
      ("init_prob_sample_last_steps", .q 0.0),
      ("final_prob_sample_last_steps", .q 0.0),
      ("reduce_action_redundancy", .b false),
      ("max_samples", .i 10000000),
      ("val_max_samples", .i 640),
      ("val_datasets", .b false),
      ("num_workers", .i 8)]),
   ("sensor_cfgs", .map
     [("input_sensors", .list [.s "raw_navigation_camera", .s "raw_manipulation_camera"])]),
   ("logger_cfgs", .map
     [("log_type", .s "wandb"),
      ("log_project", .null),
      ("log_run_name", .null),
      ("output_dir", .null),
      ("cache_dir", .null),
      ("save_total_limit", .i 1),
      ("log_video_interval", .i 2000),
      ("log_video_interval_val", .i 100)]),
   ("model_cfgs", .map
     [("model_architecture", .s "EarlyFusionCnnTransformer"),
      ("model_name_or_path", .null),
      ("model_version", .s "small_3")]),
   ("lora_cfgs", .map
     [("use_lora", .b false),
      ("task_type", .s "TaskType.CAUSAL_LM"),
      ("inference_mode", .b false),
      ("r", .i 16),
      ("lora_alpha", .i 16),
      ("lora_dropout", .q 0.1),
      ("target_modules", .list [.s "q_proj", .s "v_proj"]),
      ("save_full_model", .b true)]),
   ("bnb_cfgs", .map
     [("use_bnb", .b false),
      ("load_in_4bit", .b true),
      ("load_in_8bit", .b false),
      ("bnb_4bit_quant_type", .s "nf4"),
      ("bnb_4bit_use_double_quant", .b true),
      ("bnb_4bit_compute_dtype", .s "float16")]),
   ("special_tokens", .null)]

/-- Claim C4, counterexample: the YAML has an eighth top-level key,
special_tokens, so its top level does not consist of the seven group keys
alone as the claim states. -/
theorem c4_counterexample :
    "special_tokens" ∈ sftYaml.map Prod.fst ∧
    sftYaml.map Prod.fst ≠
      ["train_cfgs", "data_cfgs", "sensor_cfgs", "logger_cfgs", "model_cfgs",
       "lora_cfgs", "bnb_cfgs"] := by
  have hkeys : sftYaml.map Prod.fst =
      ["train_cfgs", "data_cfgs", "sensor_cfgs", "logger_cfgs", "model_cfgs",
       "lora_cfgs", "bnb_cfgs", "special_tokens"] := rfl
  rw [hkeys]
  exact ⟨by decide, by decide⟩

/-- Claim C4 as amended: the YAML's top level consists of the seven group
keys train_cfgs, data_cfgs, sensor_cfgs, logger_cfgs, model_cfgs,
lora_cfgs and bnb_cfgs, in this order, plus exactly one further top-level
key, special_tokens, mapped to null. -/
theorem c4_top_level_keys :
    sftYaml.map Prod.fst =
      ["train_cfgs", "data_cfgs", "sensor_cfgs", "logger_cfgs", "model_cfgs",
       "lora_cfgs", "bnb_cfgs", "special_tokens"] ∧
    yLookup sftYaml "special_tokens" = some .null :=
  ⟨rfl, rfl⟩

/-- Claim C6: the text-video-to-action SFT YAML carries exactly the
hyperparameter values the claim enumerates: learning rate 0.0001 with
adam betas [0.9, 0.95] and adam epsilon 1e-8, per-device train batch
size 8, 200 epochs, LoRA disabled with rank 16 and alpha 16, QLoRA
disabled, and the two raw camera input sensors. -/
theorem c6_hyperparameter_values :
    yLookup2 sftYaml "train_cfgs" "learning_rate" = some (.q 0.0001) ∧
    yLookup2 sftYaml "train_cfgs" "adam_betas" = some (.list [.q 0.9, .q 0.95]) ∧
    yLookup2 sftYaml "train_cfgs" "adam_epsilon" = some (.q 1e-8) ∧
    yLookup2 sftYaml "train_cfgs" "per_device_train_batch_size" = some (.i 8) ∧
    yLookup2 sftYaml "train_cfgs" "epochs" = some (.i 200) ∧
    yLookup2 sftYaml "lora_cfgs" "use_lora" = some (.b false) ∧
    yLookup2 sftYaml "lora_cfgs" "r" = some (.i 16) ∧
    yLookup2 sftYaml "lora_cfgs" "lora_alpha" = some (.i 16) ∧
    yLookup2 sftYaml "bnb_cfgs" "use_bnb" = some (.b false) ∧
    yLookup2 sftYaml "sensor_cfgs" "input_sensors" =
      some (.list [.s "raw_navigation_camera", .s "raw_manipulation_camera"]) :=
  ⟨rfl, rfl, rfl, rfl, rfl, rfl, rfl, rfl, rfl, rfl⟩

/-- An entry of a collated batch: a tensor or the metadata record. -/
inductive TVal where
  | tensor (data : List Int)
  | metaInfo (data : List (String × String))
deriving DecidableEq

/-- A collated batch, a Python dict of model inputs. -/
abbrev Batch := List (String × TVal)

/-- Output of the model forward call, as indexed by ['loss']. -/
structure ModelOutput where
  loss : ℚ
deriving DecidableEq

/-- Observable actions of the training loop, in program order. -/
inductive Event where
  | setDescription (s : String)
  | popMetaInfo
  | modelTrain
  | forward (kwargs : Batch)
  | zeroGrad
  | backward
  | optStep
  | appendLoss (l : ℚ)
  | progressUpdate
  | showMeanLoss (m : ℚ)
  | saveModel (dir : String)
  | saveTokenizer (dir : String)
  | saveProcessor (dir : String)
deriving DecidableEq

/-- The progress-bar description set at the start of epoch number epoch. -/
def descString (epoch : Nat) : String :=
  "Training for " ++ toString (epoch + 1) ++ "/3 epochs..."

/-- np.mean of the recorded losses. -/
def npMean (ls : List ℚ) : ℚ :=
  ls.sum / (ls.length : ℚ)

/-- collections.deque(maxlen).append: keep only the maxlen newest elements. -/
def dequeAppend (maxlen : Nat) (d : List ℚ) (x : ℚ) : List ℚ :=
  (d ++ [x]).drop ((d ++ [x]).length - maxlen)

/-- The interpreter state of the training loop: the event trace, the
losses deque, the gradient buffer, the log of gradients consumed by each
optimizer step, the global step counter indexing the oracles, and the
model's train/eval mode flag. -/
structure LoopState where
  trace : List Event
  losses : List ℚ
  grad : ℚ
  applied : List ℚ
  stepCount : Nat
  trainingMode : Bool
deriving DecidableEq

/-- The state before the loop: deque(maxlen=100) empty, no gradients. -/
def initState : LoopState :=
  { trace := []
    losses := []
    grad := 0
    applied := []
    stepCount := 0
    trainingMode := false }

/-- The model forward abstracted: at global step i the loss is lossOf i. -/
def okForward (lossOf : Nat → ℚ) : Nat → Batch → Except PyError ModelOutput :=
  fun i _ => .ok { loss := lossOf i }

/-- One body iteration of the inner loop, statement by statement:
batch.pop('meta_info'); model.train(); loss = model(**batch)['loss'];
optimizer.zero_grad(); loss.backward(); optimizer.step();
losses.append(loss.item()); progress_bar.update(1);
progress_bar.set_postfix(loss=np.mean(losses)).  The backward gradient of
step i is the oracle value gradOf i; zero_grad clears the buffer, backward
adds to it, and step consumes whatever the buffer then holds. -/
def trainStep (forward : Nat → Batch → Except PyError ModelOutput) (gradOf : Nat → ℚ)
    (st : LoopState) (batch : Batch) : Except PyError LoopState :=
  match dictPop batch "meta_info" with
  | .error e => .error e
  | .ok (_, kwargs) =>
    let st1 := { st with trace := st.trace ++ [Event.popMetaInfo] }
    let st2 := { st1 with trainingMode := true
                          trace := st1.trace ++ [Event.modelTrain] }
    match forward st2.stepCount kwargs with
    | .error e => .error e
    | .ok out =>
      let loss := out.loss
      let st3 := { st2 with trace := st2.trace ++ [Event.forward kwargs] }
      let st4 := { st3 with grad := 0
                            trace := st3.trace ++ [Event.zeroGrad] }
      let st5 := { st4 with grad := st4.grad + gradOf st4.stepCount
                            trace := st4.trace ++ [Event.backward] }
      let st6 := { st5 with applied := st5.applied ++ [st5.grad]
                            trace := st5.trace ++ [Event.optStep] }
      let st7 := { st6 with losses := dequeAppend 100 st6.losses loss
                            trace := st6.trace ++ [Event.appendLoss loss] }
      let st8 := { st7 with trace := st7.trace ++ [Event.progressUpdate] }
      .ok { st8 with stepCount := st8.stepCount + 1
                     trace := st8.trace ++ [Event.showMeanLoss (npMean st7.losses)] }

/-- The inner for-loop over the batches yielded by train_dataloader. -/
def runBatches (forward : Nat → Batch → Except PyError ModelOutput) (gradOf : Nat → ℚ) :
    LoopState → List Batch → Except PyError LoopState
  | st, [] => .ok st
  | st, b :: bs =>
    match trainStep forward gradOf st b with
    | .error e => .error e
    | .ok st' => runBatches forward gradOf st' bs

/-- One epoch: set the progress-bar description, run the inner loop, then
model.save_pretrained('./output'); tokenizer.save_pretrained('./output');
processor.save_pretrained('./output'). -/
def runEpoch (forward : Nat → Batch → Except PyError ModelOutput) (gradOf : Nat → ℚ)
    (batches : List Batch) (st : LoopState) (epoch : Nat) : Except PyError LoopState :=
  let st0 := { st with trace := st.trace ++ [Event.setDescription (descString epoch)] }
  match runBatches forward gradOf st0 batches with
  | .error e => .error e
  | .ok st1 =>
    let st2 := { st1 with trace := st1.trace ++ [Event.saveModel "./output"] }
    let st3 := { st2 with trace := st2.trace ++ [Event.saveTokenizer "./output"] }
    .ok { st3 with trace := st3.trace ++ [Event.saveProcessor "./output"] }

/-- The outer for-loop over the epoch indices. -/
def runEpochs (forward : Nat → Batch → Except PyError ModelOutput) (gradOf : Nat → ℚ)
    (batches : List Batch) : LoopState → List Nat → Except PyError LoopState
  | st, [] => .ok st
  | st, e :: es =>
    match runEpoch forward gradOf batches st e with
    | .error err => .error err
    | .ok st' => runEpochs forward gradOf batches st' es

/-- The whole training cell: for epoch in range(3): ... -/
def trainingLoop (forward : Nat → Batch → Except PyError ModelOutput) (gradOf : Nat → ℚ)
    (batches : List Batch) : Except PyError LoopState :=
  runEpochs forward gradOf batches initState (List.range 3)

/-- The events one successful body iteration appends to the trace. -/
def stepEvents (kwargs : Batch) (l : ℚ) (m : ℚ) : List Event :=
  [.popMetaInfo, .modelTrain, .forward kwargs, .zeroGrad, .backward, .optStep,
   .appendLoss l, .progressUpdate, .showMeanLoss m]

/-- The three checkpoint saves performed at the end of every epoch. -/
def saveEvents : List Event :=
  [.saveModel "./output", .saveTokenizer "./output", .saveProcessor "./output"]

/-- Selects the forward calls and the checkpoint saves from a trace. -/
def isMainEv : Event → Bool
  | .forward _ => true
  | .saveModel _ => true
  | .saveTokenizer _ => true
  | .saveProcessor _ => true
  | _ => false

/-- Selects the gradient operations from a trace. -/
def isGradEv : Event → Bool
  | .zeroGrad => true
  | .backward => true
  | .optStep => true
  | _ => false

/-- The state after one successful body iteration, in closed form. -/
def applyStep (lossOf gradOf : Nat → ℚ) (st : LoopState) (batch : Batch) : LoopState :=
  { trace := st.trace ++ stepEvents (dictErase batch "meta_info") (lossOf st.stepCount)
      (npMean (dequeAppend 100 st.losses (lossOf st.stepCount)))
    losses := dequeAppend 100 st.losses (lossOf st.stepCount)
    grad := gradOf st.stepCount
    applied := st.applied ++ [gradOf st.stepCount]
    stepCount := st.stepCount + 1
    trainingMode := true }

/-- The state after a successful inner loop, in closed form. -/
def applyBatches (lossOf gradOf : Nat → ℚ) : LoopState → List Batch → LoopState
  | st, [] => st
  | st, b :: bs => applyBatches lossOf gradOf (applyStep lossOf gradOf st b) bs

/-- The state after one successful epoch, in closed form. -/
def applyEpoch (lossOf gradOf : Nat → ℚ) (batches : List Batch) (st : LoopState)
    (epoch : Nat) : LoopState :=
  let st0 := { st with trace := st.trace ++ [Event.setDescription (descString epoch)] }
  let st1 := applyBatches lossOf gradOf st0 batches
  { st1 with trace := st1.trace ++ saveEvents }

/-- The state after a successful run of several epochs, in closed form. -/
def applyEpochs (lossOf gradOf : Nat → ℚ) (batches : List Batch) :
    LoopState → List Nat → LoopState
  | st, [] => st
  | st, e :: es => applyEpochs lossOf gradOf batches (applyEpoch lossOf gradOf batches st e) es

lemma trainStep_ok (lossOf gradOf : Nat → ℚ) (st : LoopState) (b : Batch) (v : TVal)
    (hv : dictFind? b "meta_info" = some v) :
    trainStep (okForward lossOf) gradOf st b = .ok (applyStep lossOf gradOf st b) := by
  simp [trainStep, dictPop, hv, okForward, applyStep, stepEvents, List.append_assoc]

lemma runBatches_ok (lossOf gradOf : Nat → ℚ) (bs : List Batch) (st : LoopState)
    (hmeta : ∀ b ∈ bs, (dictFind? b "meta_info").isSome) :
    runBatches (okForward lossOf) gradOf st bs = .ok (applyBatches lossOf gradOf st bs) := by
  induction bs generalizing st with
  | nil => rfl
  | cons b bs ih =>
    obtain ⟨v, hv⟩ := Option.isSome_iff_exists.mp (hmeta b (by simp))
    simp only [runBatches, trainStep_ok lossOf gradOf st b v hv, applyBatches]
    exact ih _ (fun b' hb' => hmeta b' (List.mem_cons_of_mem _ hb'))

lemma applyBatches_stepCount (lossOf gradOf : Nat → ℚ) (bs : List Batch) (st : LoopState) :
    (applyBatches lossOf gradOf st bs).stepCount = st.stepCount + bs.length := by
  induction bs generalizing st with
  | nil => simp [applyBatches]
  | cons b bs ih =>
    rw [applyBatches, ih]
    simp [applyStep]
    omega

lemma applyBatches_applied (lossOf gradOf : Nat → ℚ) (bs : List Batch) (st : LoopState) :
    (applyBatches lossOf gradOf st bs).applied =
      st.applied ++ (List.range' st.stepCount bs.length).map gradOf := by
  induction bs generalizing st with
  | nil => simp [applyBatches]
  | cons b bs ih =>
    rw [applyBatches, ih]
    simp [applyStep, List.range']

lemma applyBatches_losses (lossOf gradOf : Nat → ℚ) (bs : List Batch) (st : LoopState) :
    (applyBatches lossOf gradOf st bs).losses =
      List.foldl (dequeAppend 100) st.losses
        ((List.range' st.stepCount bs.length).map lossOf) := by
  induction bs generalizing st with
  | nil => simp [applyBatches]
  | cons b bs ih =>
    rw [applyBatches, ih]
    simp [applyStep, List.range']

lemma applyBatches_filter_main (lossOf gradOf : Nat → ℚ) (bs : List Batch) (st : LoopState) :
    (applyBatches lossOf gradOf st bs).trace.filter isMainEv =
      st.trace.filter isMainEv ++
        bs.map (fun b => Event.forward (dictErase b "meta_info")) := by
  induction bs generalizing st with
  | nil => simp [applyBatches]
  | cons b bs ih =>
    rw [applyBatches, ih]
    simp [applyStep, stepEvents, isMainEv, List.filter_append]

lemma applyBatches_filter_grad (lossOf gradOf : Nat → ℚ) (bs : List Batch) (st : LoopState) :
    (applyBatches lossOf gradOf st bs).trace.filter isGradEv =
      st.trace.filter isGradEv ++
        List.flatten (List.replicate bs.length
          [Event.zeroGrad, Event.backward, Event.optStep]) := by
  induction bs generalizing st with
  | nil => simp [applyBatches]
  | cons b bs ih =>
    rw [applyBatches, ih]
    simp [applyStep, stepEvents, isGradEv, List.filter_append, List.replicate]

lemma runEpoch_ok (lossOf gradOf : Nat → ℚ) (batches : List Batch) (st : LoopState)
    (e : Nat) (hmeta : ∀ b ∈ batches, (dictFind? b "meta_info").isSome) :
    runEpoch (okForward lossOf) gradOf batches st e =
      .ok (applyEpoch lossOf gradOf batches st e) := by
  simp only [runEpoch, applyEpoch, runBatches_ok lossOf gradOf batches _ hmeta]
  simp [saveEvents, List.append_assoc]

lemma applyEpoch_stepCount (lossOf gradOf : Nat → ℚ) (batches : List Batch)
    (st : LoopState) (e : Nat) :
    (applyEpoch lossOf gradOf batches st e).stepCount = st.stepCount + batches.length := by
  simp [applyEpoch, applyBatches_stepCount]

lemma applyEpoch_applied (lossOf gradOf : Nat → ℚ) (batches : List Batch)
    (st : LoopState) (e : Nat) :
    (applyEpoch lossOf gradOf batches st e).applied =
      st.applied ++ (List.range' st.stepCount batches.length).map gradOf := by
  simp [applyEpoch, applyBatches_applied]

lemma applyEpoch_losses (lossOf gradOf : Nat → ℚ) (batches : List Batch)
    (st : LoopState) (e : Nat) :
    (applyEpoch lossOf gradOf batches st e).losses =
      List.foldl (dequeAppend 100) st.losses
        ((List.range' st.stepCount batches.length).map lossOf) := by
  simp [applyEpoch, applyBatches_losses]

lemma applyEpoch_filter_main (lossOf gradOf : Nat → ℚ) (batches : List Batch)
    (st : LoopState) (e : Nat) :
    (applyEpoch lossOf gradOf batches st e).trace.filter isMainEv =
      st.trace.filter isMainEv ++
        (batches.map (fun b => Event.forward (dictErase b "meta_info")) ++ saveEvents) := by
  simp [applyEpoch, applyBatches_filter_main, isMainEv, saveEvents,
    List.filter_append, List.append_assoc]

lemma applyEpoch_filter_grad (lossOf gradOf : Nat → ℚ) (batches : List Batch)
    (st : LoopState) (e : Nat) :
    (applyEpoch lossOf gradOf batches st e).trace.filter isGradEv =
      st.trace.filter isGradEv ++
        List.flatten (List.replicate batches.length
          [Event.zeroGrad, Event.backward, Event.optStep]) := by
  simp [applyEpoch, applyBatches_filter_grad, isGradEv, saveEvents, List.filter_append]

lemma runEpochs_ok (lossOf gradOf : Nat → ℚ) (batches : List Batch) (es : List Nat)
    (st : LoopState) (hmeta : ∀ b ∈ batches, (dictFind? b "meta_info").isSome) :
    runEpochs (okForward lossOf) gradOf batches st es =
      .ok (applyEpochs lossOf gradOf batches st es) := by
  induction es generalizing st with
  | nil => rfl
  | cons e es ih =>
    simp only [runEpochs, runEpoch_ok lossOf gradOf batches st e hmeta, applyEpochs]
    exact ih _

lemma range1_append (s m n : Nat) :
    List.range' s m ++ List.range' (s + m) n = List.range' s (m + n) := by
  induction m generalizing s with
  | zero => simp
  | succ m ih =>
    have h2 : m + 1 + n = (m + n) + 1 := by omega
    rw [h2]
    simp only [List.range']
    rw [show s + (m + 1) = (s + 1) + m by omega, List.cons_append, ih (s + 1)]

lemma applyEpochs_stepCount (lossOf gradOf : Nat → ℚ) (batches : List Batch)
    (es : List Nat) (st : LoopState) :
    (applyEpochs lossOf gradOf batches st es).stepCount =
      st.stepCount + es.length * batches.length := by
  induction es generalizing st with
  | nil => simp [applyEpochs]
  | cons e es ih =>
    rw [applyEpochs, ih, applyEpoch_stepCount]
    have : (es.length + 1) * batches.length =
        batches.length + es.length * batches.length := by ring
    simp [this]
    omega

lemma applyEpochs_applied (lossOf gradOf : Nat → ℚ) (batches : List Batch)
    (es : List Nat) (st : LoopState) :
    (applyEpochs lossOf gradOf batches st es).applied =
      st.applied ++ (List.range' st.stepCount (es.length * batches.length)).map gradOf := by
  induction es generalizing st with
  | nil => simp [applyEpochs]
  | cons e es ih =>
    rw [applyEpochs, ih, applyEpoch_applied, applyEpoch_stepCount, List.append_assoc,
      ← List.map_append, range1_append]
    have : (es.length + 1) * batches.length =
        batches.length + es.length * batches.length := by ring
    rw [List.length_cons, this]

lemma applyEpochs_losses (lossOf gradOf : Nat → ℚ) (batches : List Batch)
    (es : List Nat) (st : LoopState) :
    (applyEpochs lossOf gradOf batches st es).losses =
      List.foldl (dequeAppend 100) st.losses
        ((List.range' st.stepCount (es.length * batches.length)).map lossOf) := by
  induction es generalizing st with
  | nil => simp [applyEpochs]
  | cons e es ih =>
    rw [applyEpochs, ih, applyEpoch_losses, applyEpoch_stepCount, ← List.foldl_append,
      ← List.map_append, range1_append]
    have : (es.length + 1) * batches.length =
        batches.length + es.length * batches.length := by ring
    rw [List.length_cons, this]

lemma applyEpochs_filter_main (lossOf gradOf : Nat → ℚ) (batches : List Batch)
    (es : List Nat) (st : LoopState) :
    (applyEpochs lossOf gradOf batches st es).trace.filter isMainEv =
      st.trace.filter isMainEv ++
        List.flatten (List.replicate es.length
          (batches.map (fun b => Event.forward (dictErase b "meta_info")) ++ saveEvents)) := by
  induction es generalizing st with
  | nil => simp [applyEpochs]
  | cons e es ih =>
    rw [applyEpochs, ih, applyEpoch_filter_main]
    simp [List.replicate, List.append_assoc]

lemma applyEpochs_filter_grad (lossOf gradOf : Nat → ℚ) (batches : List Batch)
    (es : List Nat) (st : LoopState) :
    (applyEpochs lossOf gradOf batches st es).trace.filter isGradEv =
      st.trace.filter isGradEv ++
        List.flatten (List.replicate (es.length * batches.length)
          [Event.zeroGrad, Event.backward, Event.optStep]) := by
  induction es generalizing st with
  | nil => simp [applyEpochs]
  | cons e es ih =>
    rw [applyEpochs, ih, applyEpoch_filter_grad]
    have : (es.length + 1) * batches.length =
        batches.length + es.length * batches.length := by ring
    rw [List.length_cons, this, List.replicate_add, List.flatten_append, List.append_assoc]

lemma foldl_dequeAppend (M : Nat) (ls d : List ℚ) (hd : d.length ≤ M) :
    List.foldl (dequeAppend M) d ls = (d ++ ls).drop ((d.length + ls.length) - M) := by
  induction ls generalizing d with
  | nil =>
    have h0 : d.length - M = 0 := by omega
    simp [h0]
  | cons x ls ih =>
    have hA : dequeAppend M d x = (d ++ [x]).drop (d.length + 1 - M) := by
      simp [dequeAppend]
    have hlen : (dequeAppend M d x).length ≤ M := by
      rw [hA]
      simp only [List.length_drop, List.length_append, List.length_cons, List.length_nil]
      omega
    rw [List.foldl_cons, ih _ hlen]
    have h2 : ((d ++ [x]) ++ ls).drop (d.length + 1 - M) =
        (d ++ [x]).drop (d.length + 1 - M) ++ ls := by
      rw [List.drop_append_eq_append_drop]
      have hz : d.length + 1 - M - (d ++ [x]).length = 0 := by
        simp only [List.length_append, List.length_cons, List.length_nil]
        omega
      simp [hz]
    rw [hA, ← h2, List.drop_drop]
    rw [show d ++ [x] ++ ls = d ++ x :: ls by simp]
    congr 1
    simp only [List.length_drop, List.length_append, List.length_cons, List.length_nil]
    omega

lemma dictFind?_cons_pos {α : Type} {p : String × α} {d : List (String × α)} {k : String}
    (h : (p.1 == k) = true) :
    dictFind? (p :: d) k = some p.2 := by
  rw [dictFind?, List.find?_cons_of_pos _ (by simpa using h)]

lemma dictFind?_cons_neg {α : Type} {p : String × α} {d : List (String × α)} {k : String}
    (h : (p.1 == k) = false) :
    dictFind? (p :: d) k = dictFind? d k := by
  rw [dictFind?, List.find?_cons_of_neg _ (by simp [h]), dictFind?]

lemma dictFind?_erase_self {α : Type} (d : List (String × α)) (k : String) :
    dictFind? (dictErase d k) k = none := by
  have h : (dictErase d k).find? (fun p => p.1 == k) = none := by
    apply List.find?_eq_none.mpr
    intro p hp
    simpa using (List.mem_filter.mp hp).2
  simp [dictFind?, h]

lemma dictFind?_erase_ne {α : Type} (d : List (String × α)) (k k' : String) (h : k' ≠ k) :
    dictFind? (dictErase d k) k' = dictFind? d k' := by
  induction d with
  | nil => rfl
  | cons p d ih =>
    rw [dictErase, List.filter_cons]
    by_cases hk : (p.1 == k) = true
    · have hk2 : (p.1 == k') = false := by
        apply beq_eq_false_iff_ne.mpr
        intro e
        exact h ((beq_iff_eq.mp hk) ▸ e ▸ rfl)
      rw [hk]
      simp only [Bool.not_true, Bool.false_eq_true, if_false]
      rw [show List.filter (fun p => !(p.1 == k)) d = dictErase d k from rfl, ih,
        dictFind?_cons_neg hk2]
    · have hkf : (p.1 == k) = false := by simpa using hk
      rw [hkf]
      simp only [Bool.not_false, if_true]
      by_cases hk2 : (p.1 == k') = true
      · rw [dictFind?_cons_pos hk2, dictFind?_cons_pos hk2]
      · have hk2f : (p.1 == k') = false := by simpa using hk2
        rw [dictFind?_cons_neg hk2f, dictFind?_cons_neg hk2f,
          show List.filter (fun p => !(p.1 == k)) d = dictErase d k from rfl, ih]

lemma trainingLoop_ok (lossOf gradOf : Nat → ℚ) (batches : List Batch)
    (hmeta : ∀ b ∈ batches, (dictFind? b "meta_info").isSome) :
    trainingLoop (okForward lossOf) gradOf batches =
      .ok (applyEpochs lossOf gradOf batches initState (List.range 3)) :=
  runEpochs_ok lossOf gradOf batches (List.range 3) initState hmeta

lemma count_saveEvents_block (ev : Event) (hsv : saveEvents.count ev = 1)
    (hforward : ∀ b : Batch, Event.forward (dictErase b "meta_info") ≠ ev)
    (batches : List Batch) :
    (List.flatten (List.replicate 3
      (batches.map (fun b => Event.forward (dictErase b "meta_info")) ++ saveEvents))).count
        ev = 3 := by
  rw [List.count_flatten, List.map_replicate, List.sum_replicate]
  have hmap : (batches.map (fun b => Event.forward (dictErase b "meta_info"))).count ev = 0 := by
    apply List.count_eq_zero.mpr
    intro hmem
    obtain ⟨b, _, hb⟩ := List.mem_map.mp hmem
    exact hforward b hb
  rw [List.count_append, hmap, hsv]
  simp

lemma count_main_filter (l : List Event) (ev : Event) (h : isMainEv ev = true) :
    l.count ev = (l.filter isMainEv).count ev :=
  (List.count_filter h).symm

/-- Claim C1: with the model forward abstracted by a loss oracle and every
batch carrying meta_info, the training loop succeeds, and its trace of
forward calls and checkpoint saves is exactly three repetitions of one
full in-order pass over the batches followed by the three save calls on
'./output'; in particular model, tokenizer and processor saves each occur
exactly three times, once after each epoch. -/
theorem c1_three_epochs_full_pass_saves (lossOf gradOf : Nat → ℚ) (batches : List Batch)
    (hmeta : ∀ b ∈ batches, (dictFind? b "meta_info").isSome) :
    ∃ st, trainingLoop (okForward lossOf) gradOf batches = .ok st ∧
      st.trace.filter isMainEv =
        List.flatten (List.replicate 3
          (batches.map (fun b => Event.forward (dictErase b "meta_info")) ++ saveEvents)) ∧
      st.trace.count (Event.saveModel "./output") = 3 ∧
      st.trace.count (Event.saveTokenizer "./output") = 3 ∧
      st.trace.count (Event.saveProcessor "./output") = 3 := by
  have hfil : (applyEpochs lossOf gradOf batches initState (List.range 3)).trace.filter
      isMainEv =
      List.flatten (List.replicate 3
        (batches.map (fun b => Event.forward (dictErase b "meta_info")) ++ saveEvents)) := by
    rw [applyEpochs_filter_main]
    simp [initState, List.length_range]
  refine ⟨_, trainingLoop_ok lossOf gradOf batches hmeta, hfil, ?_, ?_, ?_⟩
  · rw [count_main_filter _ _ (by rfl), hfil]
    exact count_saveEvents_block _ (by rfl) (fun b hb => Event.noConfusion hb) batches
  · rw [count_main_filter _ _ (by rfl), hfil]
    exact count_saveEvents_block _ (by rfl) (fun b hb => Event.noConfusion hb) batches
  · rw [count_main_filter _ _ (by rfl), hfil]
    exact count_saveEvents_block _ (by rfl) (fun b hb => Event.noConfusion hb) batches

/-- Witness for C1 on a one-batch dataloader. -/
theorem c1_witness :
    ∃ st, trainingLoop (okForward (fun _ => 1)) (fun _ => 2)
        [[("meta_info", TVal.metaInfo [])]] = .ok st ∧
      st.trace.filter isMainEv =
        List.flatten (List.replicate 3
          ([[("meta_info", TVal.metaInfo [])]].map
            (fun b => Event.forward (dictErase b "meta_info")) ++ saveEvents)) ∧
      st.trace.count (Event.saveModel "./output") = 3 ∧
      st.trace.count (Event.saveTokenizer "./output") = 3 ∧
      st.trace.count (Event.saveProcessor "./output") = 3 :=
  c1_three_epochs_full_pass_saves (fun _ => 1) (fun _ => 2)
    [[("meta_info", TVal.metaInfo [])]]
    (by intro b hb; rw [List.mem_singleton] at hb; subst hb; rfl)

/-- Claim C10: in the successful run every body iteration contributes the
gradient operations zero_grad, backward, step exactly once each and in
this order, and the gradient each optimizer step consumes is exactly the
backward gradient of its own step: nothing accumulates across batches. -/
theorem c10_gradient_discipline (lossOf gradOf : Nat → ℚ) (batches : List Batch)
    (hmeta : ∀ b ∈ batches, (dictFind? b "meta_info").isSome) :
    ∃ st, trainingLoop (okForward lossOf) gradOf batches = .ok st ∧
      st.trace.filter isGradEv =
        List.flatten (List.replicate (3 * batches.length)
          [Event.zeroGrad, Event.backward, Event.optStep]) ∧
      st.applied = (List.range (3 * batches.length)).map gradOf := by
  refine ⟨_, trainingLoop_ok lossOf gradOf batches hmeta, ?_, ?_⟩
  · rw [applyEpochs_filter_grad]
    simp [initState, List.length_range]
  · rw [applyEpochs_applied]
    simp [initState, List.length_range, List.range_eq_range']

/-- Witness for C10 on a one-batch dataloader. -/
theorem c10_witness :
    ∃ st, trainingLoop (okForward (fun _ => 1)) (fun i => (i : ℚ))
        [[("meta_info", TVal.metaInfo [])]] = .ok st ∧
      st.trace.filter isGradEv =
        List.flatten (List.replicate (3 * [[("meta_info", TVal.metaInfo [])]].length)
          [Event.zeroGrad, Event.backward, Event.optStep]) ∧
      st.applied = (List.range (3 * [[("meta_info", TVal.metaInfo [])]].length)).map
        (fun i => (i : ℚ)) :=
  c10_gradient_discipline (fun _ => 1) (fun i => (i : ℚ))
    [[("meta_info", TVal.metaInfo [])]]
    (by intro b hb; rw [List.mem_singleton] at hb; subst hb; rfl)

/-- Claim C9: the loss shown on the progress bar after a step is the
arithmetic mean of the deque contents; the deque keeps at most the 100
newest appended losses, older ones being dropped for good, so after the
whole run it holds exactly the last min(total, 100) step losses. -/
theorem c9_loss_window (lossOf gradOf : Nat → ℚ) (st : LoopState) (b : Batch) (v : TVal)
    (hv : dictFind? b "meta_info" = some v)
    (batches : List Batch)
    (hmeta : ∀ b' ∈ batches, (dictFind? b' "meta_info").isSome) :
    (∀ (d : List ℚ) (x : ℚ),
      dequeAppend 100 d x = (d ++ [x]).drop (d.length + 1 - 100)) ∧
    (∀ ls : List ℚ, List.foldl (dequeAppend 100) [] ls = ls.drop (ls.length - 100)) ∧
    (∃ st', trainStep (okForward lossOf) gradOf st b = .ok st' ∧
      st'.losses = dequeAppend 100 st.losses (lossOf st.stepCount) ∧
      st'.trace.getLast? = some (Event.showMeanLoss (npMean st'.losses)) ∧
      npMean st'.losses = st'.losses.sum / (st'.losses.length : ℚ)) ∧
    (∃ stF, trainingLoop (okForward lossOf) gradOf batches = .ok stF ∧
      stF.losses = ((List.range (3 * batches.length)).map lossOf).drop
        (3 * batches.length - 100)) := by
  refine ⟨?_, ?_, ?_, ?_⟩
  · intro d x
    simp [dequeAppend]
  · intro ls
    rw [foldl_dequeAppend 100 ls [] (by simp)]
    simp
  · refine ⟨_, trainStep_ok lossOf gradOf st b v hv, rfl, ?_, rfl⟩
    rw [show (applyStep lossOf gradOf st b).trace =
      st.trace ++ stepEvents (dictErase b "meta_info") (lossOf st.stepCount)
        (npMean (dequeAppend 100 st.losses (lossOf st.stepCount))) from rfl]
    rw [List.getLast?_append_of_ne_nil _ (by simp [stepEvents])]
    rfl
  · refine ⟨_, trainingLoop_ok lossOf gradOf batches hmeta, ?_⟩
    rw [applyEpochs_losses, foldl_dequeAppend 100 _ _ (by simp [initState])]
    simp [initState, List.length_range, List.range_eq_range']

/-- Witness for C9 on a one-batch dataloader starting from the initial state. -/
theorem c9_witness :
    (∀ (d : List ℚ) (x : ℚ),
      dequeAppend 100 d x = (d ++ [x]).drop (d.length + 1 - 100)) ∧
    (∀ ls : List ℚ, List.foldl (dequeAppend 100) [] ls = ls.drop (ls.length - 100)) ∧
    (∃ st', trainStep (okForward (fun _ => 4)) (fun _ => 0) initState
        [("meta_info", TVal.metaInfo [])] = .ok st' ∧
      st'.losses = dequeAppend 100 initState.losses 4 ∧
      st'.trace.getLast? = some (Event.showMeanLoss (npMean st'.losses)) ∧
      npMean st'.losses = st'.losses.sum / (st'.losses.length : ℚ)) ∧
    (∃ stF, trainingLoop (okForward (fun _ => 4)) (fun _ => 0)
        [[("meta_info", TVal.metaInfo [])]] = .ok stF ∧
      stF.losses = ((List.range (3 * [[("meta_info", TVal.metaInfo [])]].length)).map
        (fun _ => (4 : ℚ))).drop (3 * [[("meta_info", TVal.metaInfo [])]].length - 100)) :=
  c9_loss_window (fun _ => 4) (fun _ => 0) initState
    [("meta_info", TVal.metaInfo [])] (TVal.metaInfo []) rfl
    [[("meta_info", TVal.metaInfo [])]]
    (by intro b hb; rw [List.mem_singleton] at hb; subst hb; rfl)

/-- Claim C8: removing meta_info is the only change the loop body makes to
a batch: the body succeeds, the kwargs of the forward call are exactly the
batch with the meta_info entry erased, the meta_info key alone is gone
from them, and every other key still maps to its old value. -/
theorem c8_forward_kwargs (lossOf gradOf : Nat → ℚ) (st : LoopState) (b : Batch) (v : TVal)
    (hv : dictFind? b "meta_info" = some v) :
    trainStep (okForward lossOf) gradOf st b = .ok (applyStep lossOf gradOf st b) ∧
    (applyStep lossOf gradOf st b).trace =
      st.trace ++ stepEvents (dictErase b "meta_info") (lossOf st.stepCount)
        (npMean (dequeAppend 100 st.losses (lossOf st.stepCount))) ∧
    dictFind? (dictErase b "meta_info") "meta_info" = none ∧
    (∀ k, k ≠ "meta_info" → dictFind? (dictErase b "meta_info") k = dictFind? b k) :=
  ⟨trainStep_ok lossOf gradOf st b v hv, rfl, dictFind?_erase_self b _,
    fun k hk => dictFind?_erase_ne b _ k hk⟩

/-- Witness for C8 on a two-key batch. -/
theorem c8_witness :
    trainStep (okForward (fun _ => 1)) (fun _ => 1) initState
        [("input_ids", TVal.tensor [5]), ("meta_info", TVal.metaInfo [])] =
      .ok (applyStep (fun _ => 1) (fun _ => 1) initState
        [("input_ids", TVal.tensor [5]), ("meta_info", TVal.metaInfo [])]) ∧
    (applyStep (fun _ => 1) (fun _ => 1) initState
        [("input_ids", TVal.tensor [5]), ("meta_info", TVal.metaInfo [])]).trace =
      initState.trace ++ stepEvents
        (dictErase [("input_ids", TVal.tensor [5]), ("meta_info", TVal.metaInfo [])]
          "meta_info") 1
        (npMean (dequeAppend 100 initState.losses 1)) ∧
    dictFind? (dictErase [("input_ids", TVal.tensor [5]), ("meta_info", TVal.metaInfo [])]
      "meta_info") "meta_info" = none ∧
    (∀ k, k ≠ "meta_info" →
      dictFind? (dictErase [("input_ids", TVal.tensor [5]), ("meta_info", TVal.metaInfo [])]
        "meta_info") k =
      dictFind? [("input_ids", TVal.tensor [5]), ("meta_info", TVal.metaInfo [])] k) :=
  c8_forward_kwargs (fun _ => 1) (fun _ => 1) initState
    [("input_ids", TVal.tensor [5]), ("meta_info", TVal.metaInfo [])]
    (TVal.metaInfo []) rfl

/-- Modelled from the spec: the collator of the text-image-to-text
SupervisedDataset is not among the excerpted files; per the spec a batch
holds token ids, attention masks, optional pixel tensors, and a metadata
field stored under the key meta_info. -/
structure CollatedBatch where
  input_ids : List Int
  attention_mask : List Int
  pixel_values : Option (List Int)
  meta_info : List (String × String)

/-- The batch dict the modelled collator yields for the dataloader. -/
def CollatedBatch.toDict (cb : CollatedBatch) : Batch :=
  [("input_ids", .tensor cb.input_ids), ("attention_mask", .tensor cb.attention_mask)] ++
  (match cb.pixel_values with
   | some pv => [("pixel_values", TVal.tensor pv)]
   | none => []) ++
  [("meta_info", .metaInfo cb.meta_info)]

/-- Claim C7: every batch the (spec-modelled) collator yields carries the
meta_info key, so the loop's unconditional batch.pop('meta_info') with no
default succeeds on it; on a dict lacking the key the same pop raises a
KeyError. -/
theorem c7_meta_info_always_present (cb : CollatedBatch) (d : Batch)
    (hd : dictFind? d "meta_info" = none) :
    dictFind? cb.toDict "meta_info" = some (.metaInfo cb.meta_info) ∧
    dictPop cb.toDict "meta_info" =
      .ok (.metaInfo cb.meta_info, dictErase cb.toDict "meta_info") ∧
    dictPop d "meta_info" = .error (.keyError "meta_info") := by
  have h1 : dictFind? cb.toDict "meta_info" = some (.metaInfo cb.meta_info) := by
    rcases cb with ⟨a, m, pv, mi⟩
    cases pv <;> rfl
  exact ⟨h1, by rw [dictPop, h1], by rw [dictPop, hd]⟩

/-- Witness for C7 on a concrete collated batch and the empty dict. -/
theorem c7_witness :
    dictFind? (CollatedBatch.toDict ⟨[1], [1], none, []⟩) "meta_info" =
      some (.metaInfo []) ∧
    dictPop (CollatedBatch.toDict ⟨[1], [1], none, []⟩) "meta_info" =
      .ok (.metaInfo [], dictErase (CollatedBatch.toDict ⟨[1], [1], none, []⟩)
        "meta_info") ∧
    dictPop ([] : Batch) "meta_info" = .error (.keyError "meta_info") :=
  c7_meta_info_always_present ⟨[1], [1], none, []⟩ [] rfl

/-- Claim C5: failures pass through untouched: a raw sample missing
prompt, response or image makes the formatter fail with exactly that
key's KeyError; an error raised by the model forward on the first batch
aborts the whole training loop with that error unchanged; and a first
batch without meta_info aborts it with the pop's KeyError. -/
theorem c5_no_recovery :
    (∀ raw : RawSample, dictFind? raw "prompt" = none →
      format_supervised_sample raw = .error (.keyError "prompt")) ∧
    (∀ (raw : RawSample) (p : PyVal), dictFind? raw "prompt" = some p →
      dictFind? raw "response" = none →
      format_supervised_sample raw = .error (.keyError "response")) ∧
    (∀ (raw : RawSample) (p r : PyVal), dictFind? raw "prompt" = some p →
      dictFind? raw "response" = some r → dictFind? raw "image" = none →
      format_supervised_sample raw = .error (.keyError "image")) ∧
    (∀ (e : PyError) (gradOf : Nat → ℚ) (b : Batch) (v : TVal) (rest : List Batch),
      dictFind? b "meta_info" = some v →
      trainingLoop (fun _ _ => .error e) gradOf (b :: rest) = .error e) ∧
    (∀ (lossOf gradOf : Nat → ℚ) (b : Batch) (rest : List Batch),
      dictFind? b "meta_info" = none →
      trainingLoop (okForward lossOf) gradOf (b :: rest) =
        .error (.keyError "meta_info")) := by
  have h3 : List.range 3 = [0, 1, 2] := rfl
  refine ⟨?_, ?_, ?_, ?_, ?_⟩
  · intro raw h
    simp [format_supervised_sample, dictGet, h]
  · intro raw p hp h
    simp [format_supervised_sample, dictGet, hp, h]
  · intro raw p r hp hr h
    simp [format_supervised_sample, dictGet, hp, hr, h]
  · intro e gradOf b v rest hv
    rw [trainingLoop, h3]
    simp [runEpochs, runEpoch, runBatches, trainStep, dictPop, hv]
  · intro lossOf gradOf b rest h
    rw [trainingLoop, h3]
    simp [runEpochs, runEpoch, runBatches, trainStep, dictPop, h]

/-- Witness for C5: a sample missing its prompt and a dataloader whose
first batch lacks meta_info. -/
theorem c5_witness :
    format_supervised_sample [("response", .str "a")] = .error (.keyError "prompt") ∧
    trainingLoop (okForward (fun _ => 0)) (fun _ => 0) [[]] =
      .error (.keyError "meta_info") :=
  ⟨c5_no_recovery.1 [("response", .str "a")] rfl,
   c5_no_recovery.2.2.2.2 (fun _ => 0) (fun _ => 0) [] [] rfl⟩
